import Mathlib

/-
Verification of adownloader (src/adownloader.py) against its specification.

The embedding translates the pure decision logic of the downloader into Lean:
  - the retry backoff formula of AsyncDownloader._download_file (line 99);
  - the content-length parsing of AsyncDownloader._check_file (lines 70-73);
  - the filename resolution of AsyncDownloader._check_file (lines 54-59, 74-78, 82-83);
  - the status gate of AsyncDownloader._check_file (lines 66-69);
  - the full branch structure of AsyncDownloader._download_file (lines 86-126),
    with filesystem state and the network outcome passed explicitly and the
    observable effects (GET issued, Range header, open mode, progress advances,
    progress-task registration/removal, bytes written to the sidecar, rename,
    returned triple) collected in a trace record;
  - the retry/yield loop of AsyncDownloader.download_generator (lines 138-145),
    modelled per descriptor as a recursion over the chain of re-enqueued tasks.
-/

/-- Record of one resolved download target, mirroring the
`_FileInfo = namedtuple('FileInfo', ['url', 'path', 'size', 'accept_ranges'])`
of the source. `path` is an `Option` because `_check_file` can leave the
filename as Python `None` (when a content-disposition header carries no
filename); `size` is an `Int` because Python `int()` can produce a negative
value from a signed header. `accept_ranges` is the raw response header. -/
structure FileInfo where
  url : String
  path : Option String
  size : Int
  accept_ranges : Option String
deriving DecidableEq

/-- Configuration fields of `AsyncDownloader.__init__` that the fetch logic
reads: `allow_override` and (under its specification name from section 6,
"allow-resume") the source's `allow_partial` flag. -/
structure AsyncDownloader where
  allow_override : Bool
  allow_resume : Bool
deriving DecidableEq

/-- RetryPolicy: backoff delay in seconds, from line 99 of the source,
`retry * 60 / (retry + 15)` (Python true division, modelled in the rationals). -/
def retryDelay (retry : Nat) : ℚ :=
  (retry : ℚ) * 60 / ((retry : ℚ) + 15)

/-- Digits of a decimal numeral to a natural number; `none` when the character
list is empty or contains a non-digit. -/
def digitsVal (cs : List Char) : Option Nat :=
  if cs ≠ [] ∧ cs.all Char.isDigit then
    some (cs.foldl (fun a c => a * 10 + (c.toNat - 48)) 0)
  else none

/-- Models the Python builtin `int()` applied to a string: an optional sign
followed by decimal digits gives the signed value, anything else raises
`ValueError` (modelled as `none`). Underscore digit separators and surrounding
whitespace, which Python also accepts, are not modelled; they do not matter for
any input considered here. -/
def pyInt (s : String) : Option Int :=
  match s.toList with
  | '-' :: rest => (digitsVal rest).map (fun n => -(n : Int))
  | '+' :: rest => (digitsVal rest).map (fun n => (n : Int))
  | cs => (digitsVal cs).map (fun n => (n : Int))

/-- Content-length extraction from `_check_file` lines 70-73:
`int(resp.headers.get('content-length', 0))` with `ValueError` caught and
mapped to 0. A missing header gives the default 0; an unparseable value gives
0 via the `except ValueError` arm; a parseable value (including a negative
one) is passed through. -/
def parseSize (header : Option String) : Int :=
  match header with
  | none => 0
  | some s => (pyInt s).getD 0

/-- Parsed Content-Disposition header, as exposed by the HTTP client:
the `filename` parameter is optional (`Content-Disposition: inline` has none). -/
structure Disposition where
  filename : Option String
deriving DecidableEq

/-- Split of a character list at every occurrence of a separator, mirroring
Python `str.split(sep)` for a one-character separator: the result is never
empty, and splitting the empty string gives one empty field. -/
def splitOnChar (sep : Char) : List Char → List (List Char)
  | [] => [[]]
  | c :: rest =>
    if c = sep then [] :: splitOnChar sep rest
    else
      match splitOnChar sep rest with
      | [] => [[c]]
      | s :: ss => (c :: s) :: ss

/-- Last segment of a URL path, from `resp.url.path.split('/')[-1]` at line 78. -/
def lastUrlSegment (p : String) : String :=
  String.mk ((splitOnChar '/' p.toList).getLastD [])

/-- Filename resolution of `_check_file` (lines 54-59 and 74-78): an explicit
caller-supplied name wins; otherwise, when a content-disposition header is
present, its `filename` parameter is used (even when that parameter is absent,
in which case the result is `none`); only when no content-disposition header is
present at all does the last URL path segment serve as fallback. -/
def resolveFilename (explicitName : Option String)
    (disposition : Option Disposition) (urlPath : String) : Option String :=
  match explicitName with
  | some f => some f
  | none =>
    match disposition with
    | some d => d.filename
    | none => some (lastUrlSegment urlPath)

/-- Destination path construction of `_check_file` lines 82-83: a resolved
string filename is joined under the download directory
(`self.download_dir / filename`); a Python `None` filename stays `None`. -/
def checkFilePath (downloadDir : String) (explicitName : Option String)
    (disposition : Option Disposition) (urlPath : String) : Option String :=
  (resolveFilename explicitName disposition urlPath).map
    (fun f => downloadDir ++ "/" ++ f)

/-- Whether `resp.raise_for_status()` raises: aiohttp raises for any response
status of 400 or above. -/
def raiseForStatus (status : Nat) : Bool :=
  decide (400 ≤ status)

/-- Status gate of `_check_file` lines 66-69: `if not (resp.status <= 400):`
then `resp.raise_for_status()`. Returns `true` exactly when the probe aborts
the batch on this status. -/
def probeStatusAborts (status : Nat) : Bool :=
  if ¬ (status ≤ 400) then raiseForStatus status else false

/-- Retry ceiling, `self.max_retires = 3` at line 45 of the source. -/
def max_retires : Nat := 3

/-- Filesystem state seen by one fetch attempt: whether the destination file
exists and its on-disk size, and the content of the `.part` sidecar file
(`none` when no sidecar exists; its size is the content's length). -/
structure FsState where
  destExists : Bool
  destSize : Nat
  partContent : Option (List Nat)
deriving DecidableEq

/-- Outcome of the network transfer of one GET: either the body streams to
completion as a list of chunks (each a list of bytes), or a timeout interrupts
streaming after some prefix of chunks was already written. -/
inductive NetEvent where
  | ok (chunks : List (List Nat))
  | timeout (chunksBefore : List (List Nat))
deriving DecidableEq

/-- Chunks actually written to the sidecar during the attempt, flattened. -/
def NetEvent.written : NetEvent → List Nat
  | .ok chunks => chunks.flatten
  | .timeout chunksBefore => chunksBefore.flatten

/-- Bytes streamed (the per-chunk progress advances summed). -/
def NetEvent.streamed : NetEvent → Nat
  | .ok chunks => (chunks.map List.length).sum
  | .timeout chunksBefore => (chunksBefore.map List.length).sum

/-- Open mode chosen at line 114: `'ab' if offset > 0 else 'wb'`. -/
inductive OpenMode where
  | append
  | truncate
deriving DecidableEq

/-- First component of the triple returned by `_download_file`: the source
returns the `_FileInfo` record on every path except the skip-on-mismatch path
at line 95, which returns `file.path` (the bare destination path) instead. -/
inductive Returned where
  | info (f : FileInfo)
  | path (p : Option String)
deriving DecidableEq

/-- Observable effects of one `_download_file` call. `didGet` records whether
a network GET was issued; `rangeHeader` is the starting byte of a `Range`
header on that GET (`none` = unranged); `openMode` is how the sidecar was
opened (`none` = never opened); `preStreamAdvance` is the advance applied to
the aggregate progress task before any chunk streams (line 89 or line 113);
`streamAdvance` sums the per-chunk aggregate advances (line 118);
`taskRegistered`/`taskRemoved` track the transfer-level progress entry
(lines 112, 121, 125); `partWritten` is the content of the staging `.part`
file at the end of streaming (`none` = the attempt never wrote it);
`renamedToDest` records the atomic finalize at line 123; `result` is the
returned triple. -/
structure FetchTrace where
  didGet : Bool
  rangeHeader : Option Nat
  openMode : Option OpenMode
  preStreamAdvance : Int
  streamAdvance : Nat
  taskRegistered : Bool
  taskRemoved : Bool
  partWritten : Option (List Nat)
  renamedToDest : Bool
  result : Returned × Nat × Bool
deriving DecidableEq

/-- Shallow embedding of `AsyncDownloader._download_file` (lines 86-126).
Branches, in source order: destination exists with matching size (lines
87-90, already complete); destination exists with mismatched size and
overriding disabled (lines 93-95, skip — note the source returns `file.path`
here, not `file`); otherwise the transfer runs: resume eligibility
`use_partial and filepath_part.exists()` with
`use_partial = allow_partial and accept_ranges == 'bytes'` (lines 96, 105),
offset = sidecar size, `Range: bytes=offset-` (lines 106-107), sidecar opened
`'ab'` when `offset > 0` else `'wb'` (line 114), aggregate progress advanced
by the offset before streaming (line 113), and the `except TimeoutError` arm
(lines 119-122) removing the transfer task and returning a transient failure. -/
def downloadFile (cfg : AsyncDownloader) (file : FileInfo) (retry : Nat)
    (fs : FsState) (net : NetEvent) : FetchTrace :=
  if fs.destExists && ((fs.destSize : Int) == file.size) then
    { didGet := false, rangeHeader := none, openMode := none,
      preStreamAdvance := file.size, streamAdvance := 0,
      taskRegistered := false, taskRemoved := false,
      partWritten := none, renamedToDest := false,
      result := (.info file, retry, true) }
  else if fs.destExists && !cfg.allow_override then
    { didGet := false, rangeHeader := none, openMode := none,
      preStreamAdvance := 0, streamAdvance := 0,
      taskRegistered := false, taskRemoved := false,
      partWritten := none, renamedToDest := false,
      result := (.path file.path, retry, true) }
  else
    let use_ranged := cfg.allow_resume && (file.accept_ranges == some "bytes")
    let resuming := use_ranged && fs.partContent.isSome
    let offset := if resuming then (fs.partContent.getD []).length else 0
    let range : Option Nat := if resuming then some offset else none
    let mode : OpenMode := if offset > 0 then .append else .truncate
    let base : List Nat := if offset > 0 then fs.partContent.getD [] else []
    match net with
    | .ok chunks =>
      { didGet := true, rangeHeader := range, openMode := some mode,
        preStreamAdvance := (offset : Int),
        streamAdvance := (chunks.map List.length).sum,
        taskRegistered := true, taskRemoved := true,
        partWritten := some (base ++ chunks.flatten), renamedToDest := true,
        result := (.info file, retry, true) }
    | .timeout chunksBefore =>
      { didGet := true, rangeHeader := range, openMode := some mode,
        preStreamAdvance := (offset : Int),
        streamAdvance := (chunksBefore.map List.length).sum,
        taskRegistered := true, taskRemoved := true,
        partWritten := some (base ++ chunksBefore.flatten),
        renamedToDest := false,
        result := (.info file, retry, false) }

/-- The fetch phase of one batch over already-probed descriptors: one
`_download_file` call per descriptor at retry 0, each against its own
filesystem state and network outcome. -/
def fetchPhase (cfg : AsyncDownloader)
    (jobs : List (FileInfo × FsState × NetEvent)) : List FetchTrace :=
  jobs.map (fun j => downloadFile cfg j.1 0 j.2.1 j.2.2)

/-- Result of the per-descriptor retry/yield loop of `download_generator`:
either the batch is aborted by `raise StopAsyncIteration` (line 141), or the
descriptor's path is yielded (line 143). -/
inductive LoopResult where
  | aborted
  | yielded (p : Option String)
deriving DecidableEq

/-- Shallow embedding of the loop body of `download_generator` (lines
138-145), restricted to the chain of tasks of one descriptor: awaiting the
task for attempt `r` gives `ok r`; if `r` has reached `maxR`
(`retry >= self.max_retires`, checked first) the whole batch stops without
yielding; otherwise a successful attempt yields the descriptor's path, and a
failed one re-enqueues a task for attempt `r + 1`. -/
def retryLoop (maxR : Nat) (ok : Nat → Bool) (p : Option String)
    (r : Nat) : LoopResult :=
  if h : maxR ≤ r then .aborted
  else if ok r then .yielded p
  else retryLoop maxR ok p (r + 1)
termination_by maxR - r
decreasing_by simp_wf; omega

theorem retryLoop_of_le (maxR : Nat) (ok : Nat → Bool) (p : Option String)
    (r : Nat) (h : maxR ≤ r) : retryLoop maxR ok p r = .aborted := by
  unfold retryLoop
  rw [dif_pos h]

theorem retryLoop_succ (maxR : Nat) (ok : Nat → Bool) (p : Option String)
    (r : Nat) (hr : r < maxR) (hok : ok r = false) :
    retryLoop maxR ok p r = retryLoop maxR ok p (r + 1) := by
  rw [retryLoop]
  rw [dif_neg (by omega)]
  simp [hok]

theorem retryLoop_failPrefix (maxR : Nat) (ok : Nat → Bool) (p : Option String)
    (h : ∀ r, r < maxR → ok r = false) :
    ∀ r, retryLoop maxR ok p r = .aborted := by
  have key : ∀ n r, maxR - r ≤ n → retryLoop maxR ok p r = .aborted := by
    intro n
    induction n with
    | zero =>
      intro r hr
      exact retryLoop_of_le maxR ok p r (by omega)
    | succ n ih =>
      intro r hr
      by_cases hle : maxR ≤ r
      · exact retryLoop_of_le maxR ok p r hle
      · rw [retryLoop_succ maxR ok p r (by omega) (h r (by omega))]
        exact ih (r + 1) (by omega)
  intro r
  exact key (maxR - r) r le_rfl

/-- Claim C1: a fetch attempt completing with a transient failure below the
ceiling is re-enqueued with retryCount incremented by 1; a completed attempt
whose retryCount has reached the ceiling (3) makes the whole batch terminate
early without yielding a path; hence a fetch that times out on every attempt
never contributes a path to the output sequence. -/
theorem C1_transient_retry_and_ceiling (ok : Nat → Bool) (p : Option String) :
    max_retires = 3
    ∧ (∀ r, r < max_retires → ok r = false →
        retryLoop max_retires ok p r = retryLoop max_retires ok p (r + 1))
    ∧ (∀ r, max_retires ≤ r → retryLoop max_retires ok p r = .aborted)
    ∧ ((∀ r, ok r = false) → retryLoop max_retires ok p 0 = .aborted) :=
  ⟨rfl,
   fun r hr hok => retryLoop_succ max_retires ok p r hr hok,
   fun r hr => retryLoop_of_le max_retires ok p r hr,
   fun h => retryLoop_failPrefix max_retires ok p (fun r _ => h r) 0⟩

theorem C1_transient_retry_and_ceiling_witness :
    retryLoop max_retires (fun _ => false) (some "a.bin") 0 = .aborted :=
  (C1_transient_retry_and_ceiling (fun _ => false) (some "a.bin")).2.2.2
    (fun _ => rfl)

/-- Claim C10: once an attempt's retryCount equals or exceeds the ceiling (3),
awaiting its completion terminates the batch even when the attempt succeeded;
a file succeeding on its ceiling-numbered attempt never has its path yielded. -/
theorem C10_ceiling_aborts_even_on_success (ok : Nat → Bool) (p : Option String) :
    (∀ r, max_retires ≤ r → ok r = true →
      retryLoop max_retires ok p r = .aborted)
    ∧ (ok max_retires = true → (∀ r, r < max_retires → ok r = false) →
        retryLoop max_retires ok p 0 = .aborted) :=
  ⟨fun r hr _ => retryLoop_of_le max_retires ok p r hr,
   fun _ h => retryLoop_failPrefix max_retires ok p h 0⟩

theorem C10_ceiling_aborts_even_on_success_witness :
    retryLoop max_retires (fun r => decide (r = 3)) (some "b.bin") 0 = .aborted :=
  (C10_ceiling_aborts_even_on_success (fun r => decide (r = 3))
    (some "b.bin")).2 (by decide) (by decide)

/-- Claim C7: the retry backoff delay is a pure function of retryCount: zero
at 0, equal to retryCount * 60 / (retryCount + 15) seconds, strictly
increasing, and always strictly below 60 seconds. -/
theorem C7_retry_delay_formula :
    retryDelay 0 = 0
    ∧ (∀ r, retryDelay r = (r : ℚ) * 60 / ((r : ℚ) + 15))
    ∧ (∀ r, retryDelay r < retryDelay (r + 1))
    ∧ (∀ r, retryDelay r < 60) := by
  refine ⟨by norm_num [retryDelay], fun r => rfl, fun r => ?_, fun r => ?_⟩
  · unfold retryDelay
    push_cast
    rw [div_lt_div_iff₀ (by positivity) (by positivity)]
    nlinarith [Nat.cast_nonneg (α := ℚ) r]
  · unfold retryDelay
    rw [div_lt_iff₀ (by positivity)]
    nlinarith [Nat.cast_nonneg (α := ℚ) r]

/-- Claim C9: a probe aborts the batch on the response status exactly when
the status is strictly greater than 400; every status up to and including 400
passes the gate. -/
theorem C9_probe_abort_iff_status_gt_400 (status : Nat) :
    probeStatusAborts status = true ↔ 400 < status := by
  unfold probeStatusAborts raiseForStatus
  by_cases h : status ≤ 400
  · simp [h]
  · simp [h]
    omega

theorem C9_probe_abort_iff_status_gt_400_witness :
    probeStatusAborts 401 = true ∧ probeStatusAborts 400 = false := by
  constructor
  · exact (C9_probe_abort_iff_status_gt_400 401).mpr (by omega)
  · cases hb : probeStatusAborts 400 with
    | false => rfl
    | true =>
      exact absurd ((C9_probe_abort_iff_status_gt_400 400).mp hb) (by omega)

/-- Claim C6 counterexample: the source parses a content-length of "-5" with
Python int(), which accepts the sign, so expectedSize becomes -5: the claim
that expectedSize is a non-negative byte count in every case is false. -/
theorem C6_negative_length_counterexample :
    parseSize (some "-5") = -5 ∧ parseSize (some "-5") < 0 := by
  decide

/-- Claim C6 (amended): expectedSize is 0 when the length header is missing
or unparseable, and is non-negative whenever the header parses to a
non-negative integer; a negative reported value is passed through as-is. -/
theorem C6_size_default_zero :
    parseSize none = 0
    ∧ (∀ s, pyInt s = none → parseSize (some s) = 0)
    ∧ (∀ s n, pyInt s = some n → 0 ≤ n → 0 ≤ parseSize (some s)) := by
  refine ⟨rfl, fun s h => ?_, fun s n h hn => ?_⟩
  · simp [parseSize, h]
  · simp [parseSize, h]
    exact hn

theorem C6_size_default_zero_witness :
    parseSize (some "junk") = 0 :=
  C6_size_default_zero.2.1 "junk" (by decide)

/-- Claim C3: evaluation at the skip-on-mismatch input (destination exists
with a different size, overriding disabled). The source's line 95 returns
`file.path` — the bare destination path — as the first component of the
triple, not the `_FileInfo` descriptor required by the function's own return
annotation and by `download_generator`, which reads `fileinfo.path` from it. -/
theorem C3_skip_returns_bare_path :
    (downloadFile ⟨false, true⟩ ⟨"http://h/f.bin", some "/d/f.bin", 100, none⟩
      0 ⟨true, 50, none⟩ (.ok [])).result
      = (Returned.path (some "/d/f.bin"), 0, true)
    ∧ Returned.path (some "/d/f.bin")
      ≠ Returned.info ⟨"http://h/f.bin", some "/d/f.bin", 100, none⟩ := by
  decide

/-- Claim C5: evaluation at a probe response that carries a
Content-Disposition header without a filename parameter. The source falls
back to the URL's last path segment only when the header is entirely absent
(line 75), so here the resolved filename — and with it the destination path —
is Python `None`, although a non-empty name was derivable from the URL. -/
theorem C5_disposition_without_filename :
    resolveFilename none (some ⟨none⟩) "/d/file.bin" = none
    ∧ lastUrlSegment "/d/file.bin" = "file.bin"
    ∧ checkFilePath "/dl" none (some ⟨none⟩) "/d/file.bin" = none := by
  refine ⟨rfl, ?_, rfl⟩
  decide

/-- Claim C4: a fetch attempt whose transfer times out (after the GET was
issued and the transfer-level progress entry registered) removes that entry
and returns the triple (descriptor, retryCount, false) — a transient failure,
not a raised error. -/
theorem C4_timeout_is_transient (cfg : AsyncDownloader) (file : FileInfo)
    (retry : Nat) (fs : FsState) (cb : List (List Nat))
    (h : (downloadFile cfg file retry fs (.timeout cb)).didGet = true) :
    (downloadFile cfg file retry fs (.timeout cb)).taskRegistered = true
    ∧ (downloadFile cfg file retry fs (.timeout cb)).taskRemoved = true
    ∧ (downloadFile cfg file retry fs (.timeout cb)).result
        = (Returned.info file, retry, false) := by
  cases h1 : (fs.destExists && ((fs.destSize : Int) == file.size)) with
  | true => simp [downloadFile, h1] at h
  | false =>
    cases h2 : (fs.destExists && !cfg.allow_override) with
    | true => simp [downloadFile, h1, h2] at h
    | false => simp [downloadFile, h1, h2]

theorem C4_timeout_is_transient_witness :
    (downloadFile ⟨true, true⟩ ⟨"http://h/g", some "/d/g", 10, none⟩ 1
      ⟨false, 0, none⟩ (.timeout [])).result
      = (Returned.info ⟨"http://h/g", some "/d/g", 10, none⟩, 1, false) :=
  (C4_timeout_is_transient ⟨true, true⟩ ⟨"http://h/g", some "/d/g", 10, none⟩
    1 ⟨false, 0, none⟩ [] (by decide)).2.2

/-- Claim C2: for a fetch attempt that reaches the transfer, a ranged resume
is used exactly when resuming is allowed, the descriptor's range header is
`bytes`, and a `.part` sidecar exists; in that case the range offset and the
pre-stream aggregate advance both equal the sidecar's size and the streamed
bytes land after the sidecar's existing content; otherwise the GET is
unranged and the sidecar is truncated, so only the streamed bytes remain. -/
theorem C2_resume_conditions (cfg : AsyncDownloader) (file : FileInfo)
    (retry : Nat) (fs : FsState) (net : NetEvent)
    (h1 : (fs.destExists && ((fs.destSize : Int) == file.size)) = false)
    (h2 : (fs.destExists && !cfg.allow_override) = false) :
    (((downloadFile cfg file retry fs net).rangeHeader ≠ none) ↔
      (cfg.allow_resume = true ∧ file.accept_ranges = some "bytes"
        ∧ fs.partContent.isSome = true))
    ∧ (∀ pc, fs.partContent = some pc → cfg.allow_resume = true →
        file.accept_ranges = some "bytes" →
        (downloadFile cfg file retry fs net).rangeHeader = some pc.length
        ∧ (downloadFile cfg file retry fs net).preStreamAdvance
            = (pc.length : Int)
        ∧ (downloadFile cfg file retry fs net).partWritten
            = some (pc ++ net.written))
    ∧ (¬ (cfg.allow_resume = true ∧ file.accept_ranges = some "bytes"
          ∧ fs.partContent.isSome = true) →
        (downloadFile cfg file retry fs net).rangeHeader = none
        ∧ (downloadFile cfg file retry fs net).partWritten
            = some net.written) := by
  cases hr : cfg.allow_resume <;>
    by_cases hb : file.accept_ranges = some "bytes" <;>
      rcases hp : fs.partContent with _ | pc <;>
        cases net <;>
          simp [downloadFile, h1, h2, hr, hb, hp, NetEvent.written]

theorem C2_resume_conditions_witness :
    (downloadFile ⟨true, true⟩ ⟨"http://h/c", some "/d/c", 10, some "bytes"⟩ 0
      ⟨false, 0, some [7, 7]⟩ (.ok [[1], [2, 3]])).partWritten
      = some [7, 7, 1, 2, 3] := by
  have h := (C2_resume_conditions ⟨true, true⟩
    ⟨"http://h/c", some "/d/c", 10, some "bytes"⟩ 0 ⟨false, 0, some [7, 7]⟩
    (.ok [[1], [2, 3]]) (by decide) (by decide)).2.1 [7, 7] rfl rfl rfl
  rw [h.2.2]
  rfl

/-- Claim C8: a fetch whose destination already exists with the expected size
issues no GET, advances aggregate progress by that size and reports success;
consequently a whole fetch phase over already-complete size-matching files
issues zero GETs and succeeds for every file. -/
theorem C8_already_complete :
    (∀ (cfg : AsyncDownloader) (file : FileInfo) (retry : Nat) (fs : FsState)
        (net : NetEvent), fs.destExists = true →
        (fs.destSize : Int) = file.size →
        (downloadFile cfg file retry fs net).didGet = false
        ∧ (downloadFile cfg file retry fs net).preStreamAdvance = file.size
        ∧ (downloadFile cfg file retry fs net).result
            = (Returned.info file, retry, true))
    ∧ (∀ (cfg : AsyncDownloader) (jobs : List (FileInfo × FsState × NetEvent)),
        (∀ j ∈ jobs, j.2.1.destExists = true
          ∧ (j.2.1.destSize : Int) = j.1.size) →
        ∀ t ∈ fetchPhase cfg jobs,
          t.didGet = false ∧ t.result.2.2 = true) := by
  have single : ∀ (cfg : AsyncDownloader) (file : FileInfo) (retry : Nat)
      (fs : FsState) (net : NetEvent), fs.destExists = true →
      (fs.destSize : Int) = file.size →
      (downloadFile cfg file retry fs net).didGet = false
      ∧ (downloadFile cfg file retry fs net).preStreamAdvance = file.size
      ∧ (downloadFile cfg file retry fs net).result
          = (Returned.info file, retry, true) := by
    intro cfg file retry fs net he hs
    simp [downloadFile, he, hs]
  refine ⟨single, ?_⟩
  intro cfg jobs hall t ht
  simp only [fetchPhase, List.mem_map] at ht
  obtain ⟨j, hj, rfl⟩ := ht
  obtain ⟨he, hs⟩ := hall j hj
  obtain ⟨g1, g2, g3⟩ := single cfg j.1 0 j.2.1 j.2.2 he hs
  exact ⟨g1, by rw [g3]⟩

theorem C8_already_complete_witness :
    (downloadFile ⟨true, true⟩ ⟨"http://h/a", some "/d/a", 5, none⟩ 0
      ⟨true, 5, none⟩ (.ok [])).didGet = false :=
  (C8_already_complete.1 ⟨true, true⟩ ⟨"http://h/a", some "/d/a", 5, none⟩ 0
    ⟨true, 5, none⟩ (.ok []) rfl (by decide)).1
